import Mathlib

/-!
Verification of the Stripe checkout notification Lambda handler.

Shallow embedding of the event handler module (the `getStripeSecretKey`
credential resolver, the `getNotificationMessages` template dictionary, and
the `handler` event processor) of the `lambda-stripe-notifications`
repository, together with theorems settling the specification claims.

Modelling conventions:
* `process.env` is a list of name/value string pairs; an unset variable is
  an absent key.  JavaScript truthiness of an env read (`!process.env[k]`)
  identifies "unset" with "set to the empty string", captured by `jsTruthy`.
* Each AWS / Stripe SDK call and `JSON.parse` is an oracle supplied in a
  `World` record: the response the backend would return (`Except` models a
  thrown exception).  Every performed backend call is recorded in an
  ordered `ExtCall` log, so frame properties ("no publish happened") are
  statements about the log.
* A thrown `Error` is `Except.error msg` carrying the message string that
  the source builds; `catch` blocks that re-wrap become message prefixing,
  exactly as in the source.
-/

namespace StripeNotify

/-- Model of `process.env`: a finite map from variable names to string values. -/
abbrev Env := List (String × String)

/-- Raw env read `process.env[k]` (`none` = `undefined`). -/
def getEnv (env : Env) (k : String) : Option String :=
  (env.find? (fun p => p.1 == k)).map (fun p => p.2)

/-- JavaScript truthiness filter for an optional string: `undefined` and
`""` are falsy, every other string is truthy. -/
def jsTruthy : Option String → Option String
  | none => none
  | some s => if s == "" then none else some s

/-- Env read through a JS truthiness test (`process.env[k]` used in a
condition such as `!process.env[k]` or `process.env[k] || default`). -/
def truthyGet (env : Env) (k : String) : Option String :=
  jsTruthy (getEnv env k)

/-- JS template-literal interpolation of a possibly-undefined string:
`undefined` renders as the text `"undefined"`. -/
def jsShow : Option String → String
  | none => "undefined"
  | some s => s

/-- Model of `array.filter(Boolean)` over optional strings: drops
`null`/`undefined` entries and empty strings. -/
def jsFilterTruthy (xs : List (Option String)) : List String :=
  xs.filterMap jsTruthy

/-- Object field lookup in a parsed JSON document, modelled as an
association list with string values (`secretObject[key]`). -/
def lookupField (doc : List (String × String)) (k : String) : Option String :=
  (doc.find? (fun p => p.1 == k)).map (fun p => p.2)

/-- An expanded (or not) product reference inside a line item:
`item.price.product` is either a plain string id or an expanded product
object carrying a `deleted` flag. -/
inductive ProductRef
  | refStr (s : String)
  | refObj (name : String) (deleted : Bool)
deriving DecidableEq, Repr

/-- One Stripe line item as consumed by the handler. -/
structure LineItem where
  product : Option ProductRef
  amount_total : Int
  amount_subtotal : Int
  description : String
  quantity : Int
deriving DecidableEq, Repr

/-- Model of `checkoutSession.payment_intent`: either a plain string id or
an object reference with an id field. -/
inductive PaymentIntentRef
  | piStr (s : String)
  | piObj (id : String)
deriving DecidableEq, Repr

/-- The checkout-session object nested in the event
(`event.detail.data.object`). -/
structure CheckoutSession where
  id : String
  payment_status : String
  payment_intent : Option PaymentIntentRef
deriving DecidableEq, Repr

/-- The inbound EventBridge event: discriminator plus session. -/
structure InboundEvent where
  detailType : String
  detail : CheckoutSession
deriving DecidableEq, Repr

/-- The language-indexed template dictionary returned by
`getNotificationMessages`. -/
structure NotificationMessages where
  title : String
  accountMessage : String
  orderDetail : String
  dashboardLink : String
  eventType : String
  sandboxId : String
  liveAccount : String
deriving DecidableEq, Repr

/-- Content block of the AWS Chatbot custom message built by the handler. -/
structure MessageContent where
  textType : String
  title : String
  description : String
  nextSteps : List String
  keywords : List String
deriving DecidableEq, Repr

/-- The AWS Chatbot custom message published to SNS. -/
structure ChatbotMessage where
  version : String
  source : String
  content : MessageContent
deriving DecidableEq, Repr

/-- One performed external call, recorded in order. -/
inductive ExtCall
  | smGet (secretId : String)
  | ssmGet (name : String)
  | stripeList (sessionId : String)
  | pubCall (topicArn : String) (message : ChatbotMessage)
deriving DecidableEq, Repr

/-- Whether a call is a secret-backend fetch (as opposed to the Stripe
enrichment call or the SNS publish). -/
def isSecretCall : ExtCall → Bool
  | ExtCall.smGet _ => true
  | ExtCall.ssmGet _ => true
  | ExtCall.stripeList _ => false
  | ExtCall.pubCall _ _ => false

/-- The behaviour of the external world during one invocation: what each
backend call would return (`Except.error` = the call throws), and what
`JSON.parse` yields on a given string. -/
structure World where
  smGet : String → Except String (Option String)
  jsonParse : String → Except String (List (String × String))
  ssmGet : String → Except String (Option String)
  stripeList : String → Except String (List LineItem)
  snsPub : String → ChatbotMessage → Except String Unit

/-- Embedding of `getStripeSecretKey`: resolves the Stripe secret key per
`STRIPE_SECRET_SOURCE`, returning the resolved value or the thrown error
message, together with the log of backend calls performed. -/
def getStripeSecretKey (env : Env) (w : World) :
    Except String String × List ExtCall :=
  match truthyGet env "STRIPE_SECRET_SOURCE" with
  | none => (.error "STRIPE_SECRET_SOURCE environment variable is not set", [])
  | some secretSource =>
    if secretSource == "env" then
      match truthyGet env "STRIPE_SECRET_KEY" with
      | none => (.error "STRIPE_SECRET_KEY environment variable is not set", [])
      | some secretKey => (.ok secretKey, [])
    else if secretSource == "secretsmanager" then
      match truthyGet env "STRIPE_SECRET_ARN" with
      | none => (.error "STRIPE_SECRET_ARN environment variable is not set", [])
      | some secretArn =>
        match w.smGet secretArn with
        | .error e =>
          (.error ("Secrets Manager error: " ++ e), [ExtCall.smGet secretArn])
        | .ok secretString? =>
          match jsTruthy secretString? with
          | none =>
            (.error "Secrets Manager error: Secret value is empty",
             [ExtCall.smGet secretArn])
          | some secretString =>
            match truthyGet env "STRIPE_SECRET_JSON_KEY" with
            | some secretKey =>
              match w.jsonParse secretString with
              | .error e =>
                (.error ("Secrets Manager error: " ++ e),
                 [ExtCall.smGet secretArn])
              | .ok secretObject =>
                match jsTruthy (lookupField secretObject secretKey) with
                | none =>
                  (.error ("Secrets Manager error: Secret key \"" ++
                     secretKey ++ "\" not found in secret"),
                   [ExtCall.smGet secretArn])
                | some v => (.ok v, [ExtCall.smGet secretArn])
            | none => (.ok secretString, [ExtCall.smGet secretArn])
    else if secretSource == "ssm" then
      match truthyGet env "STRIPE_SECRET_PARAMETER_NAME" with
      | none =>
        (.error "STRIPE_SECRET_PARAMETER_NAME environment variable is not set",
         [])
      | some parameterName =>
        match w.ssmGet parameterName with
        | .error e =>
          (.error ("SSM error: " ++ e), [ExtCall.ssmGet parameterName])
        | .ok value? =>
          match jsTruthy value? with
          | none =>
            (.error "SSM error: Parameter value is empty",
             [ExtCall.ssmGet parameterName])
          | some value => (.ok value, [ExtCall.ssmGet parameterName])
    else
      (.error ("Invalid STRIPE_SECRET_SOURCE: " ++ secretSource), [])

/-- Embedding of `getNotificationMessages`: the language-selected template
dictionary.
The declared TypeScript type restricts the argument to `"ja" | "en"`, but
at runtime any string reaches this function; everything other than
`"ja"` takes the English branch. -/
def getNotificationMessages (language : String) : NotificationMessages :=
  if language == "ja" then
    { title := "新しい決済が発生しました"
      accountMessage := "アカウントにて決済が発生しました。"
      orderDetail := "*Order detail*"
      dashboardLink := "で注文を確認する"
      eventType := "EventType:"
      sandboxId := "Sandbox ID:"
      liveAccount := "Live account" }
  else
    { title := "New payment received"
      accountMessage := "account"
      orderDetail := "*Order detail*"
      dashboardLink := "View order in Dashboard"
      eventType := "EventType:"
      sandboxId := "Sandbox ID:"
      liveAccount := "Live account" }

/-- The supported event discriminators. -/
def targetEventDetailTypes : List String :=
  ["checkout.session.async_payment_succeeded", "checkout.session.completed"]

/-- The env vars whose presence the handler validates up front. -/
def requiredEnvVars : List String :=
  ["STRIPE_SECRET_SOURCE", "SNS_TOPIC_ARN", "STRIPE_ACCOUNT_NAME"]

/-- Computation `requiredEnvVars.filter((key) => !process.env[key])`. -/
def missingEnvVarsOf (env : Env) : List String :=
  requiredEnvVars.filter (fun k => (truthyGet env k).isNone)

/-- Computation `process.env.NOTIFICATION_LANGUAGE || "en"`. -/
def notifLang (env : Env) : String :=
  match truthyGet env "NOTIFICATION_LANGUAGE" with
  | some l => l
  | none => "en"

/-- Comparison `process.env.APP_ENV !== "production"` (raw, no
truthiness). -/
def isDevMode (appEnv : Option String) : Bool :=
  appEnv != some "production"

/-- The language-appropriate placeholder for a product whose reference is
deleted or unexpanded. -/
def unknownProductText (lang : String) : String :=
  if lang == "ja" then "不明な商品" else "Unknown Product"

/-- Product-name resolution for one line item:
`product && typeof product !== "string" && !product.deleted ?
product.name : placeholder`. -/
def productName (lang : String) (p : Option ProductRef) : String :=
  match p with
  | some (ProductRef.refObj name deleted) =>
    if deleted then unknownProductText lang else name
  | some (ProductRef.refStr _) => unknownProductText lang
  | none => unknownProductText lang

/-- The five-line block rendered for one line item. -/
def lineItemLines (lang : String) (item : LineItem) : String :=
  String.intercalate "\n"
    [ "- Amount total: " ++ toString item.amount_total
    , "- Amount subtotal: " ++ toString item.amount_subtotal
    , "- Description: " ++ item.description
    , "- Product name: " ++ productName lang item.product
    , "- Quantity: " ++ toString item.quantity ]

/-- Extraction of `paymentIntentId` from either a plain string or an object
reference; `undefined` when the session has no payment intent. -/
def paymentIntentId? (s : CheckoutSession) : Option String :=
  match s.payment_intent with
  | some (PaymentIntentRef.piStr v) => some v
  | some (PaymentIntentRef.piObj i) => some i
  | none => none

/-- The segments joined into the dashboard deep link, after
`filter(Boolean)`. -/
def dashboardSegments (appEnv : Option String) (pid? : Option String) :
    List String :=
  jsFilterTruthy
    [ some "https://dashboard.stripe.com"
    , if appEnv != some "production" then some "test" else none
    , some "payments"
    , pid? ]

/-- The dashboard deep link, segments joined with a slash. -/
def dashboardUrl (appEnv : Option String) (pid? : Option String) : String :=
  String.intercalate "/" (dashboardSegments appEnv pid?)

/-- The final segment the payment-intent id contributes to the dashboard
link: empty when the id is falsy, otherwise a slash plus the id. -/
def urlTail (pid? : Option String) : String :=
  match jsTruthy pid? with
  | none => ""
  | some p => "/" ++ p

/-- The multi-line description text of the notification. -/
def buildDescription (lang : String) (msgs : NotificationMessages)
    (accountName : Option String) (session : CheckoutSession)
    (pid? : Option String) (lineItems : List LineItem) : String :=
  String.intercalate "\n"
    [ (if lang == "en" then
         "A payment has been received on the " ++ jsShow accountName ++
           " " ++ msgs.accountMessage ++ "."
       else jsShow accountName ++ msgs.accountMessage)
    , "- *Checkout Session ID*: " ++ session.id
    , "- *Payment Intent ID*: " ++ jsShow pid?
    , ""
    , msgs.orderDetail
    , String.intercalate "\n" (lineItems.map (lineItemLines lang)) ]

/-- The complete AWS Chatbot custom message the handler constructs. -/
def buildSlackMessage (dev : Bool) (lang : String)
    (msgs : NotificationMessages) (accountName sandboxId : Option String)
    (detailType : String) (session : CheckoutSession) (pid? : Option String)
    (dUrl : String) (lineItems : List LineItem) : ChatbotMessage :=
  { version := "1.0"
    source := "custom"
    content :=
      { textType := "client-markdown"
        title := (if dev then "[Test] " else "") ++ msgs.title
        description :=
          buildDescription lang msgs accountName session pid? lineItems
        nextSteps := ["<" ++ dUrl ++ "|Dashboard>" ++ msgs.dashboardLink]
        keywords :=
          [ msgs.eventType ++ " " ++ detailType
          , if dev then msgs.sandboxId ++ " " ++ jsShow sandboxId
            else msgs.liveAccount ] } }

deriving instance DecidableEq for Except

/-- Outcome of one handler invocation: the returned/thrown result plus the
ordered log of external calls performed. -/
structure HandlerResult where
  result : Except String Unit
  calls : List ExtCall
deriving DecidableEq, Repr

/-- The complete notification message the handler builds for a given
environment, event and enriched line items, with the exact parameter
wiring of the handler (dev-mode flag, language default, dictionary, account
name, sandbox id, payment-intent extraction, dashboard link). -/
def builtMessageOf (env : Env) (event : InboundEvent)
    (lineItems : List LineItem) : ChatbotMessage :=
  buildSlackMessage (isDevMode (getEnv env "APP_ENV")) (notifLang env)
    (getNotificationMessages (notifLang env))
    (getEnv env "STRIPE_ACCOUNT_NAME") (getEnv env "STRIPE_SANDBOX_ACCOUNT_ID")
    event.detailType event.detail (paymentIntentId? event.detail)
    (dashboardUrl (getEnv env "APP_ENV") (paymentIntentId? event.detail))
    lineItems

/-- The Lambda `handler`: type filter, config validation, secret
resolution, unpaid filter, enrichment, message construction, publish.
The outer try/catch only logs and re-throws, so it leaves errors
unchanged. -/
def handler (env : Env) (w : World) (event : InboundEvent) : HandlerResult :=
  if !(targetEventDetailTypes.contains event.detailType) then
    { result := .ok (), calls := [] }
  else
    let missingEnvVars := missingEnvVarsOf env
    if missingEnvVars.length > 0 then
      { result := .error ("Missing required environment variables: " ++
          String.intercalate ", " missingEnvVars)
        calls := [] }
    else
      match getStripeSecretKey env w with
      | (.error e, cs) => { result := .error e, calls := cs }
      | (.ok _stripeSecretKey, cs) =>
        let session := event.detail
        if session.payment_status == "unpaid" then
          { result := .ok (), calls := cs }
        else
          match w.stripeList session.id with
          | .error e =>
            { result := .error ("Stripe API error: " ++ e)
              calls := cs ++ [ExtCall.stripeList session.id] }
          | .ok lineItems =>
            let msg := builtMessageOf env event lineItems
            let topic := jsShow (getEnv env "SNS_TOPIC_ARN")
            match w.snsPub topic msg with
            | .error e =>
              { result := .error ("SNS publish error: " ++ e)
                calls := cs ++ [ExtCall.stripeList session.id,
                                ExtCall.pubCall topic msg] }
            | .ok _ =>
              { result := .ok ()
                calls := cs ++ [ExtCall.stripeList session.id,
                                ExtCall.pubCall topic msg] }

/-! Concrete fixtures used by the witness and counterexample theorems. -/

/-- A world whose backends never fail and return inert values; the secret
string is not JSON-shaped, so its parse oracle rejects it. -/
def worldNoop : World :=
  { smGet := fun _ => .ok none
    jsonParse := fun _ => .error "Unexpected token"
    ssmGet := fun _ => .ok none
    stripeList := fun _ => .ok []
    snsPub := fun _ _ => .ok () }

/-- A session with a paid status and a string payment intent. -/
def sessionPaid : CheckoutSession :=
  { id := "cs_123", payment_status := "paid"
    payment_intent := some (PaymentIntentRef.piStr "pi_123") }

/-- A session whose payment status is unpaid. -/
def sessionUnpaid : CheckoutSession :=
  { id := "cs_456", payment_status := "unpaid", payment_intent := none }

/-- A supported event carrying a paid session. -/
def evCompleted : InboundEvent :=
  { detailType := "checkout.session.completed", detail := sessionPaid }

/-- A supported event carrying an unpaid session. -/
def evUnpaid : InboundEvent :=
  { detailType := "checkout.session.completed", detail := sessionUnpaid }

/-- An event with an unsupported discriminator. -/
def evOther : InboundEvent :=
  { detailType := "payment_intent.succeeded", detail := sessionPaid }

/-- A fully-configured environment using the direct env-var secret source. -/
def envBase : Env :=
  [("STRIPE_SECRET_SOURCE", "env"), ("STRIPE_SECRET_KEY", "sk_test_abc"),
   ("SNS_TOPIC_ARN", "arn:aws:sns:us-east-1:123456789012:notify"),
   ("STRIPE_ACCOUNT_NAME", "MyStore")]

/-- An environment missing both the publish target and the account name. -/
def envMissingTwo : Env := [("STRIPE_SECRET_SOURCE", "env")]

/-- An environment whose secret-source discriminator is unrecognized. -/
def envInvalidSource : Env := [("STRIPE_SECRET_SOURCE", "vault")]

/-- A secretsmanager-mode environment with a JSON field name configured. -/
def envSmJson : Env :=
  [("STRIPE_SECRET_SOURCE", "secretsmanager"),
   ("STRIPE_SECRET_ARN", "arn:aws:sm:stripe-key"),
   ("STRIPE_SECRET_JSON_KEY", "sk")]

/-- A world whose secret backend returns a JSON document binding the
configured field to a non-empty key. -/
def worldSmValue : World :=
  { worldNoop with
    smGet := fun _ => .ok (some "json-doc-with-sk")
    jsonParse := fun _ => .ok [("sk", "sk_live_123")] }

/-- A world whose secret backend returns a JSON document binding the
configured field to the empty string. -/
def worldSmEmptyField : World :=
  { worldNoop with
    smGet := fun _ => .ok (some "json-doc-sk-empty")
    jsonParse := fun _ => .ok [("sk", "")] }

/-- A world whose secret backend returns a JSON document without the
configured field. -/
def worldSmNoField : World :=
  { worldNoop with
    smGet := fun _ => .ok (some "json-doc-other")
    jsonParse := fun _ => .ok [("other", "x")] }

/-- A line item whose expanded product is marked deleted. -/
def itemDeleted : LineItem :=
  { product := some (ProductRef.refObj "Old product" true)
    amount_total := 1000, amount_subtotal := 1000
    description := "Old product", quantity := 1 }

/-- A world whose enrichment call returns one deleted-product line item. -/
def worldDeleted : World :=
  { worldNoop with stripeList := fun _ => .ok [itemDeleted] }

/-! Helper lemmas shared by the claim theorems. -/

/-- Every call the credential resolver performs is a secret-backend call:
it never reaches the enrichment API or the publish client. -/
theorem getStripeSecretKey_calls_secret (env : Env) (w : World) :
    ((getStripeSecretKey env w).2).all isSecretCall = true := by
  unfold getStripeSecretKey
  repeat' split
  all_goals simp [isSecretCall]

/-- Happy-path reduction of the handler: supported type, complete
configuration, resolved secret, paid status, successful enrichment and
publish give a successful run with exactly the secret fetches, one
enrichment call and one publish, in order. -/
theorem handler_happy (env : Env) (w : World) (event : InboundEvent)
    (sk : String) (scs : List ExtCall) (items : List LineItem)
    (htype : targetEventDetailTypes.contains event.detailType = true)
    (hcfg : missingEnvVarsOf env = [])
    (hsec : getStripeSecretKey env w = (.ok sk, scs))
    (hpaid : event.detail.payment_status ≠ "unpaid")
    (hlist : w.stripeList event.detail.id = .ok items)
    (hpub : w.snsPub (jsShow (getEnv env "SNS_TOPIC_ARN"))
      (builtMessageOf env event items) = .ok ()) :
    handler env w event =
      { result := .ok ()
        calls := scs ++ [ExtCall.stripeList event.detail.id,
          ExtCall.pubCall (jsShow (getEnv env "SNS_TOPIC_ARN"))
            (builtMessageOf env event items)] } := by
  have hmem : event.detailType ∈ targetEventDetailTypes := by simpa using htype
  simp [handler, hmem, hcfg, hsec, hpaid, hlist, hpub]

/-! Claim theorems. -/

/-- C1 counterexample: with the retrieved secret parsing to a JSON document
that binds the configured field "sk" to the empty string, the field is
present in the document, yet the resolver does not return the stored value:
because the source tests the looked-up value for JS truthiness, it raises
the not-found error instead. -/
theorem C1_counterexample :
    lookupField [("sk", "")] "sk" = some "" ∧
    getStripeSecretKey envSmJson worldSmEmptyField =
      (.error "Secrets Manager error: Secret key \"sk\" not found in secret",
       [ExtCall.smGet "arn:aws:sm:stripe-key"]) :=
  ⟨rfl, by decide⟩

/-- C1 (amended): in secretsmanager mode with a JSON field configured, for
every backend response whose secret string parses as JSON, the resolver
returns the value stored under the configured field when that value is
truthy (non-empty); when the field is absent or bound to the empty string
it fails with the not-found error message, which is distinct from the
wrapping of any backend-call failure message other than the not-found text
itself. -/
theorem C1_amended_json_field (env : Env) (w : World) (arn jk s : String)
    (doc : List (String × String))
    (hsrc : truthyGet env "STRIPE_SECRET_SOURCE" = some "secretsmanager")
    (harn : truthyGet env "STRIPE_SECRET_ARN" = some arn)
    (hjk : truthyGet env "STRIPE_SECRET_JSON_KEY" = some jk)
    (hsm : w.smGet arn = .ok (some s))
    (hs : s ≠ "")
    (hparse : w.jsonParse s = .ok doc) :
    (∀ v, lookupField doc jk = some v → v ≠ "" →
      getStripeSecretKey env w = (.ok v, [ExtCall.smGet arn])) ∧
    (lookupField doc jk = none →
      getStripeSecretKey env w =
        (.error ("Secrets Manager error: Secret key \"" ++ jk ++
          "\" not found in secret"), [ExtCall.smGet arn])) ∧
    (lookupField doc jk = some "" →
      getStripeSecretKey env w =
        (.error ("Secrets Manager error: Secret key \"" ++ jk ++
          "\" not found in secret"), [ExtCall.smGet arn])) ∧
    (∀ m, "Secrets Manager error: " ++ m =
        "Secrets Manager error: Secret key \"" ++ jk ++
          "\" not found in secret" →
      m = "Secret key \"" ++ jk ++ "\" not found in secret") := by
  refine ⟨?_, ?_, ?_, ?_⟩
  · intro v hv hvne
    simp [getStripeSecretKey, hsrc, harn, hjk, hsm, hparse, jsTruthy, hs,
      hv, hvne]
  · intro hnone
    simp [getStripeSecretKey, hsrc, harn, hjk, hsm, hparse, jsTruthy, hs,
      hnone]
  · intro hemp
    simp [getStripeSecretKey, hsrc, harn, hjk, hsm, hparse, jsTruthy, hs,
      hemp]
  · intro m hm
    have hrw : ("Secrets Manager error: Secret key \"" : String) =
        "Secrets Manager error: " ++ "Secret key \"" := rfl
    rw [hrw, String.append_assoc, String.append_assoc] at hm
    have hd := congrArg String.data hm
    simp only [String.data_append] at hd
    have hmd := List.append_cancel_left hd
    apply String.ext
    simpa [String.data_append, List.append_assoc] using hmd

/-- C1 witness: the amended statement at concrete inputs — the configured
field "sk" resolves to its non-empty stored value, and a document lacking
the field produces the not-found error. -/
theorem C1_amended_json_field_witness :
    getStripeSecretKey envSmJson worldSmValue =
      (.ok "sk_live_123", [ExtCall.smGet "arn:aws:sm:stripe-key"]) ∧
    getStripeSecretKey envSmJson worldSmNoField =
      (.error "Secrets Manager error: Secret key \"sk\" not found in secret",
       [ExtCall.smGet "arn:aws:sm:stripe-key"]) := by
  constructor
  · exact (C1_amended_json_field envSmJson worldSmValue "arn:aws:sm:stripe-key"
      "sk" "json-doc-with-sk" [("sk", "sk_live_123")] (by decide) (by decide)
      (by decide) rfl (by decide) rfl).1 "sk_live_123" rfl (by decide)
  · exact (C1_amended_json_field envSmJson worldSmNoField "arn:aws:sm:stripe-key"
      "sk" "json-doc-other" [("other", "x")] (by decide) (by decide)
      (by decide) rfl (by decide) rfl).2.1 rfl

/-- C2: for every inbound event whose discriminator is outside the
supported set, the handler returns successfully and performs no external
call at all — no secret fetch, no enrichment, no publish. -/
theorem C2_unsupported_type_skips (env : Env) (w : World)
    (event : InboundEvent)
    (h : targetEventDetailTypes.contains event.detailType = false) :
    handler env w event = { result := .ok (), calls := [] } := by
  have hmem : ¬ (event.detailType ∈ targetEventDetailTypes) := by simpa using h
  simp [handler, hmem]

/-- C2 witness: a payment-intent event is skipped with an empty call log. -/
theorem C2_unsupported_type_skips_witness :
    handler [] worldNoop evOther = { result := .ok (), calls := [] } :=
  C2_unsupported_type_skips [] worldNoop evOther (by decide)

/-- C3: for every supported event whose session is unpaid — in a
configuration that passes validation and secret resolution — the handler
returns successfully, and every external call it made was a secret-backend
fetch: it never called the line-item enrichment API nor published. -/
theorem C3_unpaid_session_skips (env : Env) (w : World)
    (event : InboundEvent) (sk : String) (scs : List ExtCall)
    (htype : targetEventDetailTypes.contains event.detailType = true)
    (hcfg : missingEnvVarsOf env = [])
    (hsec : getStripeSecretKey env w = (.ok sk, scs))
    (hunpaid : event.detail.payment_status = "unpaid") :
    (handler env w event).result = .ok () ∧
    (handler env w event).calls.all isSecretCall = true := by
  have hmem : event.detailType ∈ targetEventDetailTypes := by simpa using htype
  have hall := getStripeSecretKey_calls_secret env w
  rw [hsec] at hall
  simp [handler, hmem, hcfg, hsec, hunpaid]
  simpa using hall

/-- C3 witness: an unpaid completed-checkout event under a full
configuration returns success with only secret-backend calls. -/
theorem C3_unpaid_session_skips_witness :
    (handler envBase worldNoop evUnpaid).result = .ok () ∧
    (handler envBase worldNoop evUnpaid).calls.all isSecretCall = true :=
  C3_unpaid_session_skips envBase worldNoop evUnpaid "sk_test_abc" []
    (by decide) (by decide) (by decide) (by decide)

/-- C4: for every supported event, when any of the three required settings
is absent the handler fails with the configuration error message built
from the complete list of missing keys, and every required key that reads
as missing appears in that list — not only the first. -/
theorem C4_missing_config_enumerated (env : Env) (w : World)
    (event : InboundEvent)
    (htype : targetEventDetailTypes.contains event.detailType = true)
    (hmiss : missingEnvVarsOf env ≠ []) :
    handler env w event =
      { result := .error ("Missing required environment variables: " ++
          String.intercalate ", " (missingEnvVarsOf env))
        calls := [] } ∧
    (∀ k, k ∈ requiredEnvVars → truthyGet env k = none →
      k ∈ missingEnvVarsOf env) := by
  have hmem : event.detailType ∈ targetEventDetailTypes := by simpa using htype
  have hlen : 0 < (missingEnvVarsOf env).length := List.length_pos.mpr hmiss
  constructor
  · simp [handler, hmem, hlen]
  · intro k hk hnone
    simp [missingEnvVarsOf, List.mem_filter, hk, hnone]

/-- C4 witness: with both the publish target and the account name unset,
the failure message enumerates the two missing keys. -/
theorem C4_missing_config_enumerated_witness :
    handler envMissingTwo worldNoop evCompleted =
      { result := .error
          "Missing required environment variables: SNS_TOPIC_ARN, STRIPE_ACCOUNT_NAME"
        calls := [] } ∧
    "SNS_TOPIC_ARN" ∈ missingEnvVarsOf envMissingTwo ∧
    "STRIPE_ACCOUNT_NAME" ∈ missingEnvVarsOf envMissingTwo := by
  have h := C4_missing_config_enumerated envMissingTwo worldNoop evCompleted
    (by decide) (by decide)
  exact ⟨h.1.trans (by decide), h.2 _ (by decide) (by decide),
    h.2 _ (by decide) (by decide)⟩

/-- C5: product-name resolution in message construction — an expanded
non-deleted product renders its name; a deleted product or an unexpanded
(plain string) reference renders the language-appropriate unknown-product
placeholder; and such line items do not fail the invocation: a happy-path
run over any enriched items (deleted ones included) still succeeds. -/
theorem C5_product_name_fallback (lang name str : String)
    (env : Env) (w : World) (event : InboundEvent) (sk : String)
    (scs : List ExtCall) (items : List LineItem)
    (htype : targetEventDetailTypes.contains event.detailType = true)
    (hcfg : missingEnvVarsOf env = [])
    (hsec : getStripeSecretKey env w = (.ok sk, scs))
    (hpaid : event.detail.payment_status ≠ "unpaid")
    (hlist : w.stripeList event.detail.id = .ok items)
    (hpub : w.snsPub (jsShow (getEnv env "SNS_TOPIC_ARN"))
      (builtMessageOf env event items) = .ok ()) :
    productName lang (some (ProductRef.refObj name false)) = name ∧
    productName lang (some (ProductRef.refObj name true)) =
      unknownProductText lang ∧
    productName lang (some (ProductRef.refStr str)) =
      unknownProductText lang ∧
    unknownProductText "ja" = "不明な商品" ∧
    unknownProductText "en" = "Unknown Product" ∧
    (handler env w event).result = .ok () := by
  refine ⟨rfl, rfl, rfl, rfl, rfl, ?_⟩
  rw [handler_happy env w event sk scs items htype hcfg hsec hpaid hlist hpub]

/-- C5 witness: a deleted-product line item renders the placeholder and
the invocation carrying it completes successfully. -/
theorem C5_product_name_fallback_witness :
    productName "en" (some (ProductRef.refObj "Old product" false)) =
      "Old product" ∧
    productName "en" (some (ProductRef.refObj "Old product" true)) =
      unknownProductText "en" ∧
    productName "en" (some (ProductRef.refStr "prod_123")) =
      unknownProductText "en" ∧
    unknownProductText "ja" = "不明な商品" ∧
    unknownProductText "en" = "Unknown Product" ∧
    (handler envBase worldDeleted evCompleted).result = .ok () :=
  C5_product_name_fallback "en" "Old product" "prod_123" envBase worldDeleted
    evCompleted "sk_test_abc" [] [itemDeleted] (by decide) (by decide)
    (by decide) (by decide) rfl rfl

/-- C6: language consistency of the built message — with the Japanese
selection every template-derived component of the message equals the
Japanese dictionary entry, with the English selection the English entry,
for the title, the account line of the description, the order-detail
heading, the dashboard-link text, the event-type label and the
sandbox/live keywords; the unknown-product placeholders are the
language-specific ones. The language-distinct entries of the two
dictionaries differ, so no component of one output carries a string
exclusive to the other language. -/
theorem C6_language_consistency (dev : Bool) (acc sbx : Option String)
    (dt : String) (sess : CheckoutSession) (pid : Option String)
    (dUrl : String) (items : List LineItem) :
    (buildSlackMessage dev "ja" (getNotificationMessages "ja") acc sbx dt
        sess pid dUrl items).content.title =
      (if dev then "[Test] " else "") ++ "新しい決済が発生しました" ∧
    (buildSlackMessage dev "en" (getNotificationMessages "en") acc sbx dt
        sess pid dUrl items).content.title =
      (if dev then "[Test] " else "") ++ "New payment received" ∧
    (buildSlackMessage dev "ja" (getNotificationMessages "ja") acc sbx dt
        sess pid dUrl items).content.nextSteps =
      ["<" ++ dUrl ++ "|Dashboard>" ++ "で注文を確認する"] ∧
    (buildSlackMessage dev "en" (getNotificationMessages "en") acc sbx dt
        sess pid dUrl items).content.nextSteps =
      ["<" ++ dUrl ++ "|Dashboard>" ++ "View order in Dashboard"] ∧
    (buildSlackMessage dev "ja" (getNotificationMessages "ja") acc sbx dt
        sess pid dUrl items).content.description =
      String.intercalate "\n"
        [ jsShow acc ++ "アカウントにて決済が発生しました。"
        , "- *Checkout Session ID*: " ++ sess.id
        , "- *Payment Intent ID*: " ++ jsShow pid
        , ""
        , "*Order detail*"
        , String.intercalate "\n" (items.map (lineItemLines "ja")) ] ∧
    (buildSlackMessage dev "en" (getNotificationMessages "en") acc sbx dt
        sess pid dUrl items).content.description =
      String.intercalate "\n"
        [ "A payment has been received on the " ++ jsShow acc ++ " " ++
            "account" ++ "."
        , "- *Checkout Session ID*: " ++ sess.id
        , "- *Payment Intent ID*: " ++ jsShow pid
        , ""
        , "*Order detail*"
        , String.intercalate "\n" (items.map (lineItemLines "en")) ] ∧
    (buildSlackMessage dev "ja" (getNotificationMessages "ja") acc sbx dt
        sess pid dUrl items).content.keywords =
      [ "EventType:" ++ " " ++ dt
      , if dev then "Sandbox ID:" ++ " " ++ jsShow sbx
        else "Live account" ] ∧
    (buildSlackMessage dev "en" (getNotificationMessages "en") acc sbx dt
        sess pid dUrl items).content.keywords =
      [ "EventType:" ++ " " ++ dt
      , if dev then "Sandbox ID:" ++ " " ++ jsShow sbx
        else "Live account" ] ∧
    unknownProductText "ja" = "不明な商品" ∧
    unknownProductText "en" = "Unknown Product" :=
  ⟨rfl, rfl, rfl, rfl, rfl, rfl, rfl, rfl, rfl, rfl⟩

/-- C7: the dashboard deep link is the same whether the payment intent of
the session is the plain string or the object reference carrying the same
identifier — both extract to that identifier, so the trailing segment is
identical. -/
theorem C7_payment_intent_representations (appEnv : Option String)
    (s sid status : String) :
    paymentIntentId?
        { id := sid, payment_status := status,
          payment_intent := some (PaymentIntentRef.piStr s) } = some s ∧
    paymentIntentId?
        { id := sid, payment_status := status,
          payment_intent := some (PaymentIntentRef.piObj s) } = some s ∧
    dashboardUrl appEnv (paymentIntentId?
        { id := sid, payment_status := status,
          payment_intent := some (PaymentIntentRef.piStr s) }) =
      dashboardUrl appEnv (paymentIntentId?
        { id := sid, payment_status := status,
          payment_intent := some (PaymentIntentRef.piObj s) }) :=
  ⟨rfl, rfl, rfl⟩

/-- C8: outside production the dashboard segment list inserts the test
segment after the base URL and the title gains the test tag; in
production the segment list goes straight from the base URL to the
payments segment and the title is the bare dictionary title. -/
theorem C8_test_mode_markers (appEnv pid? : Option String) (lang : String)
    (msgs : NotificationMessages) (acc sbx : Option String) (dt : String)
    (sess : CheckoutSession) (pid2 : Option String) (dUrl : String)
    (items : List LineItem) :
    (appEnv ≠ some "production" →
      dashboardSegments appEnv pid? =
        "https://dashboard.stripe.com" :: "test" :: "payments" ::
          jsFilterTruthy [pid?] ∧
      dashboardUrl appEnv pid? =
        "https://dashboard.stripe.com/test/payments" ++ urlTail pid? ∧
      isDevMode appEnv = true ∧
      (buildSlackMessage (isDevMode appEnv) lang msgs acc sbx dt sess pid2
          dUrl items).content.title = "[Test] " ++ msgs.title) ∧
    (appEnv = some "production" →
      dashboardSegments appEnv pid? =
        "https://dashboard.stripe.com" :: "payments" :: jsFilterTruthy [pid?] ∧
      dashboardUrl appEnv pid? =
        "https://dashboard.stripe.com/payments" ++ urlTail pid? ∧
      isDevMode appEnv = false ∧
      (buildSlackMessage (isDevMode appEnv) lang msgs acc sbx dt sess pid2
          dUrl items).content.title = msgs.title) := by
  constructor
  · intro h
    have hb : (appEnv != some "production") = true := by simp [bne_iff_ne, h]
    have hdev : isDevMode appEnv = true := by simp [isDevMode, hb]
    refine ⟨?_, ?_, hdev, ?_⟩
    · simp only [dashboardSegments, hb, if_true]
      rfl
    · rcases hp : jsTruthy pid? with _ | p
      · simp only [dashboardUrl, dashboardSegments, jsFilterTruthy, hb,
          if_true, urlTail, hp, List.filterMap_cons]
        rfl
      · simp only [dashboardUrl, dashboardSegments, jsFilterTruthy, hb,
          if_true, urlTail, hp, List.filterMap_cons]
        rfl
    · rw [hdev]; rfl
  · intro h
    have hb : (appEnv != some "production") = false := by simp [bne_iff_ne, h]
    have hdev : isDevMode appEnv = false := by simp [isDevMode, hb]
    refine ⟨?_, ?_, hdev, ?_⟩
    · simp only [dashboardSegments, hb, if_false]
      rfl
    · rcases hp : jsTruthy pid? with _ | p
      · simp only [dashboardUrl, dashboardSegments, jsFilterTruthy, hb,
          if_false, urlTail, hp, List.filterMap_cons]
        rfl
      · simp only [dashboardUrl, dashboardSegments, jsFilterTruthy, hb,
          if_false, urlTail, hp, List.filterMap_cons]
        rfl
    · rw [hdev]; rfl

/-- C8 witness: a staging and an absent APP_ENV produce the test link and
the tagged title, production produces neither. -/
theorem C8_test_mode_markers_witness :
    dashboardSegments (some "staging") (some "pi_1") =
      ["https://dashboard.stripe.com", "test", "payments", "pi_1"] ∧
    dashboardUrl (some "staging") (some "pi_1") =
      "https://dashboard.stripe.com/test/payments/pi_1" ∧
    dashboardUrl none (some "pi_1") =
      "https://dashboard.stripe.com/test/payments/pi_1" ∧
    dashboardUrl (some "production") (some "pi_1") =
      "https://dashboard.stripe.com/payments/pi_1" ∧
    (buildSlackMessage (isDevMode (some "staging")) "en"
        (getNotificationMessages "en") none none
        "checkout.session.completed" sessionPaid (some "pi_1") "u"
        []).content.title = "[Test] " ++ (getNotificationMessages "en").title ∧
    (buildSlackMessage (isDevMode (some "production")) "en"
        (getNotificationMessages "en") none none
        "checkout.session.completed" sessionPaid (some "pi_1") "u"
        []).content.title = (getNotificationMessages "en").title := by
  have h1 := (C8_test_mode_markers (some "staging") (some "pi_1") "en"
    (getNotificationMessages "en") none none "checkout.session.completed"
    sessionPaid (some "pi_1") "u" []).1 (by decide)
  have h0 := (C8_test_mode_markers none (some "pi_1") "en"
    (getNotificationMessages "en") none none "checkout.session.completed"
    sessionPaid (some "pi_1") "u" []).1 (by decide)
  have h2 := (C8_test_mode_markers (some "production") (some "pi_1") "en"
    (getNotificationMessages "en") none none "checkout.session.completed"
    sessionPaid (some "pi_1") "u" []).2 rfl
  exact ⟨h1.1.trans (by decide), h1.2.1.trans (by decide),
    h0.2.1.trans (by decide), h2.2.1.trans (by decide), h1.2.2.2, h2.2.2.2⟩

/-- C9: every truthy secret-source discriminator outside the recognized
set makes the credential resolver fail with the invalid-source
configuration error, with an empty backend-call log. -/
theorem C9_invalid_secret_source (env : Env) (w : World) (s : String)
    (hs : truthyGet env "STRIPE_SECRET_SOURCE" = some s)
    (h1 : s ≠ "env") (h2 : s ≠ "secretsmanager") (h3 : s ≠ "ssm") :
    getStripeSecretKey env w =
      (.error ("Invalid STRIPE_SECRET_SOURCE: " ++ s), []) := by
  simp [getStripeSecretKey, hs, h1, h2, h3]

/-- C9 witness: the discriminator vault is rejected without any backend
call. -/
theorem C9_invalid_secret_source_witness :
    getStripeSecretKey envInvalidSource worldNoop =
      (.error "Invalid STRIPE_SECRET_SOURCE: vault", []) := by
  have h := C9_invalid_secret_source envInvalidSource worldNoop "vault"
    (by decide) (by decide) (by decide) (by decide)
  exact h.trans (by decide)

/-- C10: the notification language is not validated — every language
value other than the exact string ja (unrecognized values and, through
the env default, the empty string) selects the English dictionary, and
only ja selects the Japanese one. -/
theorem C10_language_fallback_english (s : String) (h : s ≠ "ja")
    (env : Env)
    (he : truthyGet env "NOTIFICATION_LANGUAGE" = some s ∨
          truthyGet env "NOTIFICATION_LANGUAGE" = none) :
    getNotificationMessages (notifLang env) = getNotificationMessages "en" ∧
    getNotificationMessages s = getNotificationMessages "en" ∧
    (getNotificationMessages "ja").title = "新しい決済が発生しました" ∧
    (getNotificationMessages "en").title = "New payment received" := by
  have hs : getNotificationMessages s = getNotificationMessages "en" := by
    simp [getNotificationMessages, h]
  rcases he with he | he
  · exact ⟨by rw [notifLang, he]; exact hs, hs, rfl, rfl⟩
  · exact ⟨by rw [notifLang, he], hs, rfl, rfl⟩

/-- C10 witness: the unrecognized value fr falls back to the English
dictionary both directly and through the handler language selection. -/
theorem C10_language_fallback_english_witness :
    getNotificationMessages (notifLang [("NOTIFICATION_LANGUAGE", "fr")]) =
      getNotificationMessages "en" ∧
    getNotificationMessages "fr" = getNotificationMessages "en" ∧
    (getNotificationMessages "ja").title = "新しい決済が発生しました" ∧
    (getNotificationMessages "en").title = "New payment received" :=
  C10_language_fallback_english "fr" (by decide)
    [("NOTIFICATION_LANGUAGE", "fr")] (Or.inl (by decide))

end StripeNotify
